import Mathlib

/-!
Verification of the barcode-sheet layout engine (src/App.tsx).

The program composes repeated barcode images into an A4-at-300DPI page.
This file is a shallow embedding of its pure core: the page constants,
the group data model, the per-group layout step of drawOnCanvas
(margin, optional title band, vector-DPI correction, overflow check,
row-major grid placement), the dual-mode canvas wrapper, the export
gating predicate, and the state updates performed by validateBarcodeUrl
and handleGroupChange.  Geometry is modelled over the exact rationals;
canvas operations are recorded as a list of drawing commands, with
coordinates in device space (the current context scale is applied to
each recorded command).
-/

/-- validationStatus values of a group (src/App.tsx line 12). -/
inductive ValidationStatus
  | idle
  | checking
  | valid
  | invalid
deriving DecidableEq, Repr

/-- The BarcodeGroup record (src/App.tsx lines 14-23).  Numeric repeat
counts are integers (the UI clamps them to non-negative, but the field
type admits any integer); marginTop is in inches. -/
structure BarcodeGroup where
  id : Nat
  inputValue : String
  resolvedUrl : String
  validationStatus : ValidationStatus
  title : String
  horizontalCount : Int
  verticalCount : Int
  marginTop : Rat
deriving DecidableEq, Repr

/-- A4 width in inches (src/App.tsx line 5). -/
def A4_WIDTH_INCHES : Rat := 827 / 100

/-- A4 height in inches (src/App.tsx line 6). -/
def A4_HEIGHT_INCHES : Rat := 1169 / 100

/-- Target resolution in dots per inch (src/App.tsx line 7). -/
def DPI : Rat := 300

/-- Page width in pixels (src/App.tsx line 8). -/
def A4_WIDTH_PX : Rat := A4_WIDTH_INCHES * DPI

/-- Page height in pixels (src/App.tsx line 9). -/
def A4_HEIGHT_PX : Rat := A4_HEIGHT_INCHES * DPI

/-- Errors thrown inside drawContent (src/App.tsx lines 146, 160, 167). -/
inductive RenderError
  | loadFailed (url : String)
  | zeroDims (url : String)
  | overflow
deriving DecidableEq, Repr

/-- The human-readable message of each error (src/App.tsx lines 146,
160, 167): load and zero-dimension messages truncate the URL to its
first 50 characters. -/
def errMessage : RenderError → String
  | RenderError.loadFailed url => "Failed to load: " ++ url.take 50 ++ "..."
  | RenderError.zeroDims url =>
      "Image from " ++ url.take 50 ++ "... has zero dimensions."
  | RenderError.overflow => "Content overflows A4 page. Reduce counts or adjust margins."

/-- One recorded canvas drawing command.  fillRect and image carry
position and size; text carries the string, the font pixel size and the
anchor point (centered text, baseline at the given y). -/
inductive Cmd
  | fillRect (x y w h : Rat) (color : String)
  | text (s : String) (font x y : Rat)
  | image (url : String) (x y w h : Rat)
deriving DecidableEq, Repr

/-- Applying a uniform context scale to a recorded command (the effect
of ctx.scale on subsequent drawing calls). -/
def scaleCmd (s : Rat) : Cmd → Cmd
  | Cmd.fillRect x y w h c => Cmd.fillRect (s * x) (s * y) (s * w) (s * h) c
  | Cmd.text t f x y => Cmd.text t (s * f) (s * x) (s * y)
  | Cmd.image u x y w h => Cmd.image u (s * x) (s * y) (s * w) (s * h)

/-- The platform's toLowerCase over the string's character list. -/
def strToLower (s : String) : String := String.mk (s.data.map Char.toLower)

/-- The platform's endsWith over the strings' character lists. -/
def strEndsWith (s p : String) : Bool := List.isSuffixOf p.data s.data

/-- The platform's trim: strip leading and trailing whitespace. -/
def strTrim (s : String) : String :=
  String.mk
    (((s.data.dropWhile Char.isWhitespace).reverse.dropWhile Char.isWhitespace).reverse)

/-- The fixed title font size in pixels: (16pt / 72) * 300 DPI
(src/App.tsx lines 131-132). -/
def fontSizePx : Rat := (16 / 72) * DPI

/-- The title band (src/App.tsx lines 130-140): when the title is
non-empty and non-blank after trimming, draw it bold centered at
x = pageWidth/2 with baseline at cursor + fontSizePx and advance the
cursor by fontSizePx * 1.5; otherwise draw nothing and keep the cursor.
The argument is the cursor after the group's top margin was added. -/
def titleBand (y1 : Rat) (t : String) : List Cmd × Rat :=
  if t ≠ "" ∧ strTrim t ≠ "" then
    ([Cmd.text t fontSizePx (A4_WIDTH_PX / 2) (y1 + fontSizePx)],
     y1 + fontSizePx + fontSizePx * (1 / 2))
  else ([], y1)

/-- Per-cell dimensions from the intrinsic (natural) image dimensions
(src/App.tsx lines 150-157): a URL whose lowercased form ends in .svg
is scaled by DPI / 96; any other URL keeps its intrinsic pixel size. -/
def correctedDims (url : String) (w h : Nat) : Rat × Rat :=
  if strEndsWith (strToLower url) ".svg" then
    ((w : Rat) * (DPI / 96), (h : Rat) * (DPI / 96))
  else ((w : Rat), (h : Rat))

/-- The row-major grid of image draw calls (src/App.tsx lines 173-179):
outer loop over rows, inner loop over columns, cell (row, col) drawn at
(startX + col*cellW, startY + row*cellH) with size cellW x cellH. -/
def gridCells (url : String) (startX startY cellW cellH : Rat) (nx ny : Nat) :
    List Cmd :=
  ((List.range ny).map (fun (row : Nat) =>
    (List.range nx).map (fun (col : Nat) =>
      Cmd.image url (startX + (col : Rat) * cellW) (startY + (row : Rat) * cellH)
        cellW cellH))).flatten

/-- One iteration of the drawContent loop for a single group
(src/App.tsx lines 127-181): add the top margin, draw the title band,
load the image, apply vector correction, reject zero dimensions, check
vertical overflow, then draw the centered row-major grid.  The image
loader is an environment mapping a URL to its natural dimensions (none
models a load failure).  Commands drawn before a failure (the title)
are kept, since the code throws after drawing them. -/
def drawGroup (load : String → Option (Nat × Nat)) (y0 : Rat) (g : BarcodeGroup) :
    List Cmd × Except RenderError Rat :=
  let y1 := y0 + g.marginTop * DPI
  let tb := titleBand y1 g.title
  match load g.resolvedUrl with
  | none => (tb.1, Except.error (RenderError.loadFailed g.resolvedUrl))
  | some wh =>
      let cellW := (correctedDims g.resolvedUrl wh.1 wh.2).1
      let cellH := (correctedDims g.resolvedUrl wh.1 wh.2).2
      if cellW = 0 ∨ cellH = 0 then
        (tb.1, Except.error (RenderError.zeroDims g.resolvedUrl))
      else
        let gridW := (g.horizontalCount : Rat) * cellW
        let gridH := (g.verticalCount : Rat) * cellH
        if tb.2 + gridH > A4_HEIGHT_PX then
          (tb.1, Except.error RenderError.overflow)
        else
          (tb.1 ++ gridCells g.resolvedUrl ((A4_WIDTH_PX - gridW) / 2) tb.2
              cellW cellH g.horizontalCount.toNat g.verticalCount.toNat,
           Except.ok (tb.2 + gridH))

/-- The drawContent loop over the surviving groups (src/App.tsx
lines 124-182): thread the vertical cursor through the groups in
sequence order; the first failure aborts the pass, keeping the commands
drawn so far. -/
def drawGroups (load : String → Option (Nat × Nat)) :
    Rat → List BarcodeGroup → List Cmd × Except RenderError Rat
  | y, [] => ([], Except.ok y)
  | y, g :: rest =>
      let r := drawGroup load y g
      match r.2 with
      | Except.error e => (r.1, Except.error e)
      | Except.ok y2 =>
          let rr := drawGroups load y2 rest
          (r.1 ++ rr.1, rr.2)

/-- The contribution filter (src/App.tsx line 121): a group is drawn
only when its resolvedUrl is non-empty, its validationStatus is valid
and both repeat counts are positive. -/
def contributes (g : BarcodeGroup) : Bool :=
  g.resolvedUrl != "" && g.validationStatus == ValidationStatus.valid &&
    decide (0 < g.horizontalCount) && decide (0 < g.verticalCount)

/-- validGroups (src/App.tsx line 121). -/
def validGroups (gs : List BarcodeGroup) : List BarcodeGroup :=
  gs.filter contributes

/-- The preview fit factor (src/App.tsx line 187). -/
def scaleToFit (logicalW logicalH : Rat) : Rat :=
  min (logicalW / A4_WIDTH_PX) (logicalH / A4_HEIGHT_PX)

/-- The effect of a render pass on the error state: noCall when
drawOnCanvas returns before reaching setError (the empty early return
at src/App.tsx line 122), cleared for setError with null, set for
setError with an error. -/
inductive ErrEffect
  | noCall
  | cleared
  | set (e : RenderError)
deriving DecidableEq, Repr

/-- The observable outcome of one drawOnCanvas call: the canvas
backing-store dimensions, the recorded device-space commands, and the
effect on the error state. -/
structure Outcome where
  canvasW : Rat
  canvasH : Rat
  cmds : List Cmd
  errEffect : ErrEffect
deriving DecidableEq, Repr

/-- drawOnCanvas (src/App.tsx lines 101-203).  Preview mode sizes the
canvas to the element box times the device pixel ratio and scales the
context by dpr; export mode uses the fixed A4 pixel size with scale 1.
After the white background fill and the contribution filter, preview
mode additionally scales by scaleToFit before running the group loop.
On failure the catch block records the error and paints the translucent
red tint with fillRect(0, 0, logicalW, logicalH) under the transform
current at throw time: in preview the ctx.restore() at line 191 is
skipped when drawContent throws, so the scaleToFit factor is still
applied to the tint. -/
def drawOnCanvas (load : String → Option (Nat × Nat)) (groups : List BarcodeGroup)
    (isPreview : Bool) (offsetW offsetH dpr : Rat) : Outcome :=
  let logicalW := if isPreview then offsetW else A4_WIDTH_PX
  let logicalH := if isPreview then offsetH else A4_HEIGHT_PX
  let canvasW := if isPreview then logicalW * dpr else A4_WIDTH_PX
  let canvasH := if isPreview then logicalH * dpr else A4_HEIGHT_PX
  let s0 : Rat := if isPreview then dpr else 1
  let bg := Cmd.fillRect 0 0 (s0 * logicalW) (s0 * logicalH) "white"
  let valid := validGroups groups
  if valid.isEmpty then
    { canvasW := canvasW, canvasH := canvasH, cmds := [bg],
      errEffect := ErrEffect.noCall }
  else
    let sDraw := if isPreview then s0 * scaleToFit logicalW logicalH else s0
    let r := drawGroups load 0 valid
    match r.2 with
    | Except.ok _ =>
        { canvasW := canvasW, canvasH := canvasH,
          cmds := bg :: r.1.map (scaleCmd sDraw),
          errEffect := ErrEffect.cleared }
    | Except.error e =>
        { canvasW := canvasW, canvasH := canvasH,
          cmds := bg :: (r.1.map (scaleCmd sDraw) ++
            [Cmd.fillRect 0 0 (sDraw * logicalW) (sDraw * logicalH)
              "rgba(255, 0, 0, 0.1)"]),
          errEffect := ErrEffect.set e }

/-- Updating the UI error state with a render pass's effect: noCall
leaves the previous message, cleared sets it to none, set replaces it
with the new error's message (setError at src/App.tsx lines 195, 198). -/
def applyEffect (prev : Option String) : ErrEffect → Option String
  | ErrEffect.noCall => prev
  | ErrEffect.cleared => none
  | ErrEffect.set e => some (errMessage e)

/-- isDownloadDisabled (src/App.tsx line 267). -/
def isDownloadDisabled (isLoading : Bool) (gs : List BarcodeGroup) : Bool :=
  isLoading || decide (gs.length = 0) ||
    gs.any (fun g =>
      !(g.validationStatus == ValidationStatus.valid) || g.resolvedUrl == "" ||
        decide (g.horizontalCount ≤ 0) || decide (g.verticalCount ≤ 0))

/-- Map one group of the state by id, the shape of every
setBarcodeGroups updater in the source. -/
def mapGroup (id : Nat) (f : BarcodeGroup → BarcodeGroup)
    (gs : List BarcodeGroup) : List BarcodeGroup :=
  gs.map (fun g => if g.id = id then f g else g)

/-- The synchronous start of validateBarcodeUrl (src/App.tsx line 47):
mark the group as checking. -/
def startChecking (id : Nat) : List BarcodeGroup → List BarcodeGroup :=
  mapGroup id (fun g => { g with validationStatus := ValidationStatus.checking })

/-- The success completion of validateBarcodeUrl (src/App.tsx line 74):
mark the group valid and store the resolved URL.  The write is keyed by
group id only; it does not compare the group's current inputValue with
the value that was being validated. -/
def applyValidResult (id : Nat) (url : String) :
    List BarcodeGroup → List BarcodeGroup :=
  mapGroup id (fun g =>
    { g with validationStatus := ValidationStatus.valid, resolvedUrl := url })

/-- The failure completion of validateBarcodeUrl (src/App.tsx
line 81). -/
def applyInvalidResult (id : Nat) : List BarcodeGroup → List BarcodeGroup :=
  mapGroup id (fun g =>
    { g with validationStatus := ValidationStatus.invalid, resolvedUrl := "" })

/-- handleGroupChange for the inputValue field (src/App.tsx
lines 226-233): store the new value and reset resolvedUrl and
validationStatus. -/
def setInputValue (id : Nat) (v : String) :
    List BarcodeGroup → List BarcodeGroup :=
  mapGroup id (fun g =>
    { g with inputValue := v, resolvedUrl := "",
             validationStatus := ValidationStatus.idle })
/-- Length of an m-by-n nested-loop command list. -/
theorem grid_length {α : Type} (f : Nat → Nat → α) (n : Nat) :
    ∀ m : Nat,
      (((List.range m).map (fun row => (List.range n).map (f row))).flatten).length
        = m * n := by
  intro m
  induction m with
  | zero => simp
  | succ m ih =>
      rw [List.range_succ, List.map_append, List.flatten_append,
        List.length_append, ih]
      simp [Nat.succ_mul]

/-- Cell (r, c) of an m-by-n nested-loop command list sits at flat index
r * n + c: the loops emit cells in row-major order. -/
theorem grid_getElem {α : Type} (f : Nat → Nat → α) (n : Nat) :
    ∀ m r c : Nat, r < m → c < n →
      (((List.range m).map (fun row => (List.range n).map (f row))).flatten)[r * n + c]?
        = some (f r c) := by
  intro m
  induction m with
  | zero => intro r c hr _; exact absurd hr (Nat.not_lt_zero r)
  | succ m ih =>
      intro r c hr hc
      rw [List.range_succ, List.map_append, List.flatten_append]
      by_cases h : r < m
      · rw [List.getElem?_append_left]
        · exact ih r c h hc
        · rw [grid_length]
          calc r * n + c < r * n + n := by omega
            _ = (r + 1) * n := by ring
            _ ≤ m * n := Nat.mul_le_mul_right n (by omega)
      · have hrm : r = m := by omega
        subst hrm
        rw [List.getElem?_append_right]
        · rw [grid_length]
          simp [List.getElem?_map, List.getElem?_range hc]
        · rw [grid_length]; omega

theorem gridCells_length (url : String) (sx sy cw ch : Rat) (nx ny : Nat) :
    (gridCells url sx sy cw ch nx ny).length = ny * nx := by
  unfold gridCells
  exact grid_length
    (fun row col => Cmd.image url (sx + (col : Rat) * cw) (sy + (row : Rat) * ch) cw ch)
    nx ny

theorem gridCells_getElem (url : String) (sx sy cw ch : Rat) (nx ny r c : Nat)
    (hr : r < ny) (hc : c < nx) :
    (gridCells url sx sy cw ch nx ny)[r * nx + c]?
      = some (Cmd.image url (sx + (c : Rat) * cw) (sy + (r : Rat) * ch) cw ch) := by
  unfold gridCells
  exact grid_getElem
    (fun row col => Cmd.image url (sx + (col : Rat) * cw) (sy + (row : Rat) * ch) cw ch)
    nx ny r c hr hc

/-- Unfolding drawGroup on the success path. -/
theorem drawGroup_ok_eq (load : String → Option (Nat × Nat)) (y : Rat)
    (g : BarcodeGroup) (w h : Nat) (hl : load g.resolvedUrl = some (w, h))
    (hw : (correctedDims g.resolvedUrl w h).1 ≠ 0)
    (hh : (correctedDims g.resolvedUrl w h).2 ≠ 0)
    (hof : ¬((titleBand (y + g.marginTop * DPI) g.title).2 +
        (g.verticalCount : Rat) * (correctedDims g.resolvedUrl w h).2 > A4_HEIGHT_PX)) :
    drawGroup load y g =
      ((titleBand (y + g.marginTop * DPI) g.title).1 ++
        gridCells g.resolvedUrl
          ((A4_WIDTH_PX - (g.horizontalCount : Rat) * (correctedDims g.resolvedUrl w h).1) / 2)
          ((titleBand (y + g.marginTop * DPI) g.title).2)
          ((correctedDims g.resolvedUrl w h).1) ((correctedDims g.resolvedUrl w h).2)
          g.horizontalCount.toNat g.verticalCount.toNat,
       Except.ok ((titleBand (y + g.marginTop * DPI) g.title).2 +
         (g.verticalCount : Rat) * (correctedDims g.resolvedUrl w h).2)) := by
  unfold drawGroup
  rw [hl]
  dsimp only
  rw [if_neg (not_or.mpr ⟨hw, hh⟩), if_neg hof]

/-- Unfolding drawGroup on the overflow path. -/
theorem drawGroup_overflow_eq (load : String → Option (Nat × Nat)) (y : Rat)
    (g : BarcodeGroup) (w h : Nat) (hl : load g.resolvedUrl = some (w, h))
    (hw : (correctedDims g.resolvedUrl w h).1 ≠ 0)
    (hh : (correctedDims g.resolvedUrl w h).2 ≠ 0)
    (hof : (titleBand (y + g.marginTop * DPI) g.title).2 +
        (g.verticalCount : Rat) * (correctedDims g.resolvedUrl w h).2 > A4_HEIGHT_PX) :
    drawGroup load y g =
      ((titleBand (y + g.marginTop * DPI) g.title).1, Except.error RenderError.overflow) := by
  unfold drawGroup
  rw [hl]
  dsimp only
  rw [if_neg (not_or.mpr ⟨hw, hh⟩), if_pos hof]

/-- Unfolding drawGroup on a load failure. -/
theorem drawGroup_loadFail_eq (load : String → Option (Nat × Nat)) (y : Rat)
    (g : BarcodeGroup) (hl : load g.resolvedUrl = none) :
    drawGroup load y g =
      ((titleBand (y + g.marginTop * DPI) g.title).1,
       Except.error (RenderError.loadFailed g.resolvedUrl)) := by
  unfold drawGroup
  rw [hl]

/-- drawGroups propagates a failing head group. -/
theorem drawGroups_cons_err (load : String → Option (Nat × Nat)) (y : Rat)
    (g : BarcodeGroup) (rest : List BarcodeGroup) (e : RenderError)
    (hg : (drawGroup load y g).2 = Except.error e) :
    drawGroups load y (g :: rest) = ((drawGroup load y g).1, Except.error e) := by
  simp only [drawGroups]
  rw [hg]

/-- drawGroups steps through a succeeding head group. -/
theorem drawGroups_cons_ok (load : String → Option (Nat × Nat)) (y y2 : Rat)
    (g : BarcodeGroup) (rest : List BarcodeGroup)
    (hg : (drawGroup load y g).2 = Except.ok y2) :
    drawGroups load y (g :: rest) =
      ((drawGroup load y g).1 ++ (drawGroups load y2 rest).1,
       (drawGroups load y2 rest).2) := by
  simp only [drawGroups]
  rw [hg]

/-- Unfolding drawGroup on a zero-dimension asset. -/
theorem drawGroup_zero_eq (load : String → Option (Nat × Nat)) (y : Rat)
    (g : BarcodeGroup) (w h : Nat) (hl : load g.resolvedUrl = some (w, h))
    (hz : (correctedDims g.resolvedUrl w h).1 = 0 ∨ (correctedDims g.resolvedUrl w h).2 = 0) :
    drawGroup load y g =
      ((titleBand (y + g.marginTop * DPI) g.title).1,
       Except.error (RenderError.zeroDims g.resolvedUrl)) := by
  unfold drawGroup
  rw [hl]
  dsimp only
  rw [if_pos hz]

theorem fontSizePx_pos : 0 < fontSizePx := by
  norm_num [fontSizePx, DPI]

/-- The title band never moves the cursor up. -/
theorem titleBand_le (y1 : Rat) (t : String) : y1 ≤ (titleBand y1 t).2 := by
  unfold titleBand
  split
  · have := fontSizePx_pos
    dsimp only
    linarith
  · exact le_refl y1

theorem correctedDims_nonneg (url : String) (w h : Nat) :
    0 ≤ (correctedDims url w h).1 ∧ 0 ≤ (correctedDims url w h).2 := by
  unfold correctedDims
  split
  · constructor <;> exact mul_nonneg (by positivity) (by norm_num [DPI])
  · exact ⟨Nat.cast_nonneg w, Nat.cast_nonneg h⟩

/-- Inversion of a successful drawGroup step: the image loaded with
some dimensions, neither corrected dimension is zero, the returned
cursor is the title-band cursor plus the grid height, and it is within
the page. -/
theorem drawGroup_ok_inv (load : String → Option (Nat × Nat)) (y : Rat)
    (g : BarcodeGroup) (y' : Rat)
    (hok : (drawGroup load y g).2 = Except.ok y') :
    ∃ w h, load g.resolvedUrl = some (w, h) ∧
      (correctedDims g.resolvedUrl w h).1 ≠ 0 ∧
      (correctedDims g.resolvedUrl w h).2 ≠ 0 ∧
      y' = (titleBand (y + g.marginTop * DPI) g.title).2 +
        (g.verticalCount : Rat) * (correctedDims g.resolvedUrl w h).2 ∧
      y' ≤ A4_HEIGHT_PX := by
  cases hl : load g.resolvedUrl with
  | none =>
      rw [drawGroup_loadFail_eq load y g hl] at hok
      exact absurd hok (by simp)
  | some wh =>
      obtain ⟨w, h⟩ := wh
      by_cases hz : (correctedDims g.resolvedUrl w h).1 = 0 ∨
          (correctedDims g.resolvedUrl w h).2 = 0
      · rw [drawGroup_zero_eq load y g w h hl hz] at hok
        exact absurd hok (by simp)
      · rw [not_or] at hz
        by_cases hof : (titleBand (y + g.marginTop * DPI) g.title).2 +
            (g.verticalCount : Rat) * (correctedDims g.resolvedUrl w h).2 > A4_HEIGHT_PX
        · rw [drawGroup_overflow_eq load y g w h hl hz.1 hz.2 hof] at hok
          exact absurd hok (by simp)
        · rw [drawGroup_ok_eq load y g w h hl hz.1 hz.2 hof] at hok
          have hX : (titleBand (y + g.marginTop * DPI) g.title).2 +
              (g.verticalCount : Rat) * (correctedDims g.resolvedUrl w h).2 = y' :=
            Except.ok.inj hok
          refine ⟨w, h, rfl, hz.1, hz.2, hX.symm, ?_⟩
          rw [← hX]
          exact le_of_not_lt hof

/-- A successful drawGroup step never moves the cursor up and never
ends past the page bottom. -/
theorem drawGroup_ok_bounds (load : String → Option (Nat × Nat)) (y : Rat)
    (g : BarcodeGroup) (y' : Rat) (hm : 0 ≤ g.marginTop) (hv : 0 ≤ g.verticalCount)
    (hok : (drawGroup load y g).2 = Except.ok y') :
    y ≤ y' ∧ y' ≤ A4_HEIGHT_PX := by
  obtain ⟨w, h, hl, hw, hh, hy, hle⟩ := drawGroup_ok_inv load y g y' hok
  refine ⟨?_, hle⟩
  rw [hy]
  have h1 : y ≤ y + g.marginTop * DPI := by
    have hd : (0 : Rat) ≤ DPI := by norm_num [DPI]
    nlinarith
  have h2 := titleBand_le (y + g.marginTop * DPI) g.title
  have h3 : 0 ≤ (g.verticalCount : Rat) * (correctedDims g.resolvedUrl w h).2 := by
    have hv' : (0 : Rat) ≤ (g.verticalCount : Rat) := by exact_mod_cast hv
    exact mul_nonneg hv' (correctedDims_nonneg g.resolvedUrl w h).2
  linarith

/-- Over a whole pass, the cursor is monotonically non-decreasing. -/
theorem drawGroups_ok_mono (load : String → Option (Nat × Nat)) :
    ∀ (gs : List BarcodeGroup) (y y' : Rat),
      (∀ g ∈ gs, 0 ≤ g.marginTop ∧ 0 ≤ g.verticalCount) →
      (drawGroups load y gs).2 = Except.ok y' → y ≤ y' := by
  intro gs
  induction gs with
  | nil =>
      intro y y' _ hok
      simp only [drawGroups] at hok
      exact le_of_eq (Except.ok.inj hok)
  | cons g rest ih =>
      intro y y' hgs hok
      cases hg : (drawGroup load y g).2 with
      | error e =>
          rw [drawGroups_cons_err load y g rest e hg] at hok
          exact absurd hok (by simp)
      | ok y2 =>
          rw [drawGroups_cons_ok load y y2 g rest hg] at hok
          have h1 := (drawGroup_ok_bounds load y g y2 (hgs g (by simp)).1
            (hgs g (by simp)).2 hg).1
          have h2 := ih y2 y' (fun g' hg' => hgs g' (by simp [hg'])) hok
          linarith

/-- A successful non-empty pass ends with the cursor within the page. -/
theorem drawGroups_ok_last_le (load : String → Option (Nat × Nat)) :
    ∀ (gs : List BarcodeGroup) (y y' : Rat), gs ≠ [] →
      (drawGroups load y gs).2 = Except.ok y' → y' ≤ A4_HEIGHT_PX := by
  intro gs
  induction gs with
  | nil => intro y y' hne _; exact absurd rfl hne
  | cons g rest ih =>
      intro y y' _ hok
      cases hg : (drawGroup load y g).2 with
      | error e =>
          rw [drawGroups_cons_err load y g rest e hg] at hok
          exact absurd hok (by simp)
      | ok y2 =>
          rw [drawGroups_cons_ok load y y2 g rest hg] at hok
          cases rest with
          | nil =>
              simp only [drawGroups] at hok
              have : y2 = y' := Except.ok.inj hok
              rw [← this]
              obtain ⟨w, h, _, _, _, _, hle⟩ := drawGroup_ok_inv load y g y2 hg
              exact hle
          | cons g2 rest2 => exact ih y2 y' (by simp) hok

/-- Example image loader: the URL u resolves to a 100 by 50 raster
image; everything else fails to load. -/
def load1 : String → Option (Nat × Nat) := fun u =>
  if u = "u" then some (100, 50) else none

/-- Example contributing group: a 5 by 10 grid of the image at URL u,
no title, no margin. -/
def gEx : BarcodeGroup :=
  { id := 1, inputValue := "1", resolvedUrl := "u",
    validationStatus := ValidationStatus.valid, title := "",
    horizontalCount := 5, verticalCount := 10, marginTop := 0 }

/-- An empty title draws nothing and keeps the cursor. -/
theorem titleBand_empty (y1 : Rat) : titleBand y1 "" = ([], y1) := by
  unfold titleBand
  rw [if_neg]
  simp

/-- A non-svg URL keeps the intrinsic dimensions. -/
theorem corrected_raster (url : String) (w h : Nat)
    (hs : strEndsWith (strToLower url) ".svg" = false) :
    correctedDims url w h = ((w : Rat), (h : Rat)) := by
  unfold correctedDims
  rw [hs]
  rfl

/-- An svg URL scales both intrinsic dimensions by DPI / 96. -/
theorem corrected_svg (url : String) (w h : Nat)
    (hs : strEndsWith (strToLower url) ".svg" = true) :
    correctedDims url w h = ((w : Rat) * (DPI / 96), (h : Rat) * (DPI / 96)) := by
  unfold correctedDims
  rw [hs]
  rfl

/-- drawOnCanvas in export mode with no contributing group. -/
theorem drawOnCanvas_export_empty (load : String → Option (Nat × Nat))
    (gs : List BarcodeGroup) (oW oH dpr : Rat) (he : validGroups gs = []) :
    drawOnCanvas load gs false oW oH dpr =
      { canvasW := A4_WIDTH_PX, canvasH := A4_HEIGHT_PX,
        cmds := [Cmd.fillRect 0 0 (1 * A4_WIDTH_PX) (1 * A4_HEIGHT_PX) "white"],
        errEffect := ErrEffect.noCall } := by
  unfold drawOnCanvas
  dsimp only
  rw [he]
  rfl

/-- drawOnCanvas in export mode on a successful pass. -/
theorem drawOnCanvas_export_ok (load : String → Option (Nat × Nat))
    (gs : List BarcodeGroup) (oW oH dpr y : Rat)
    (hne : (validGroups gs).isEmpty = false)
    (hok : (drawGroups load 0 (validGroups gs)).2 = Except.ok y) :
    drawOnCanvas load gs false oW oH dpr =
      { canvasW := A4_WIDTH_PX, canvasH := A4_HEIGHT_PX,
        cmds := Cmd.fillRect 0 0 (1 * A4_WIDTH_PX) (1 * A4_HEIGHT_PX) "white" ::
          (drawGroups load 0 (validGroups gs)).1.map (scaleCmd 1),
        errEffect := ErrEffect.cleared } := by
  unfold drawOnCanvas
  dsimp only
  rw [hne, hok]
  rfl

/-- drawOnCanvas in export mode on a failing pass: the tint covers the
whole logical page. -/
theorem drawOnCanvas_export_error (load : String → Option (Nat × Nat))
    (gs : List BarcodeGroup) (oW oH dpr : Rat) (e : RenderError)
    (hne : (validGroups gs).isEmpty = false)
    (herr : (drawGroups load 0 (validGroups gs)).2 = Except.error e) :
    drawOnCanvas load gs false oW oH dpr =
      { canvasW := A4_WIDTH_PX, canvasH := A4_HEIGHT_PX,
        cmds := Cmd.fillRect 0 0 (1 * A4_WIDTH_PX) (1 * A4_HEIGHT_PX) "white" ::
          ((drawGroups load 0 (validGroups gs)).1.map (scaleCmd 1) ++
            [Cmd.fillRect 0 0 (1 * A4_WIDTH_PX) (1 * A4_HEIGHT_PX)
              "rgba(255, 0, 0, 0.1)"]),
        errEffect := ErrEffect.set e } := by
  unfold drawOnCanvas
  dsimp only
  rw [hne, herr]
  rfl

/-- drawOnCanvas in preview mode on a failing pass: the ctx.restore
skipped by the throw leaves the scaleToFit factor applied, so the tint
rectangle is scaled by dpr * scaleToFit rather than covering the
canvas. -/
theorem drawOnCanvas_preview_error (load : String → Option (Nat × Nat))
    (gs : List BarcodeGroup) (oW oH dpr : Rat) (e : RenderError)
    (hne : (validGroups gs).isEmpty = false)
    (herr : (drawGroups load 0 (validGroups gs)).2 = Except.error e) :
    drawOnCanvas load gs true oW oH dpr =
      { canvasW := oW * dpr, canvasH := oH * dpr,
        cmds := Cmd.fillRect 0 0 (dpr * oW) (dpr * oH) "white" ::
          ((drawGroups load 0 (validGroups gs)).1.map
              (scaleCmd (dpr * scaleToFit oW oH)) ++
            [Cmd.fillRect 0 0 (dpr * scaleToFit oW oH * oW)
              (dpr * scaleToFit oW oH * oH) "rgba(255, 0, 0, 0.1)"]),
        errEffect := ErrEffect.set e } := by
  unfold drawOnCanvas
  dsimp only
  rw [hne, herr]
  rfl

/-- Export-mode drawOnCanvas always sizes the canvas to the fixed A4
pixel dimensions, on every path (empty, success, failure). -/
theorem drawOnCanvas_export_dims (load : String → Option (Nat × Nat))
    (gs : List BarcodeGroup) (oW oH dpr : Rat) :
    (drawOnCanvas load gs false oW oH dpr).canvasW = A4_WIDTH_PX ∧
    (drawOnCanvas load gs false oW oH dpr).canvasH = A4_HEIGHT_PX := by
  unfold drawOnCanvas
  dsimp only
  split
  · exact ⟨rfl, rfl⟩
  · split <;> exact ⟨rfl, rfl⟩

/-- Claim C9: the page constants are fixed for the life of the process:
pageWidthPx = 8.27 inches times 300 DPI = 2481 and pageHeightPx =
11.69 inches times 300 DPI = 3507 exactly, and the export-mode canvas
(hence the exported file) has dimensions exactly pageWidthPx by
pageHeightPx on every render path. -/
theorem page_constants :
    A4_WIDTH_PX = A4_WIDTH_INCHES * DPI ∧ A4_HEIGHT_PX = A4_HEIGHT_INCHES * DPI ∧
    A4_WIDTH_PX = 2481 ∧ A4_HEIGHT_PX = 3507 ∧
    (∀ (load : String → Option (Nat × Nat)) (gs : List BarcodeGroup) (oW oH dpr : Rat),
      (drawOnCanvas load gs false oW oH dpr).canvasW = 2481 ∧
      (drawOnCanvas load gs false oW oH dpr).canvasH = 3507) := by
  have hw : A4_WIDTH_PX = 2481 := by norm_num [A4_WIDTH_PX, A4_WIDTH_INCHES, DPI]
  have hh : A4_HEIGHT_PX = 3507 := by norm_num [A4_HEIGHT_PX, A4_HEIGHT_INCHES, DPI]
  refine ⟨rfl, rfl, hw, hh, ?_⟩
  intro load gs oW oH dpr
  have := drawOnCanvas_export_dims load gs oW oH dpr
  exact ⟨by rw [this.1, hw], by rw [this.2, hh]⟩

/-- Witness for C9 at a concrete export render. -/
theorem page_constants_witness :
    (drawOnCanvas (fun _ => none) [] false 0 0 1).canvasW = 2481 ∧
    (drawOnCanvas (fun _ => none) [] false 0 0 1).canvasH = 3507 :=
  page_constants.2.2.2.2 (fun _ => none) [] 0 0 1

/-- Claim C4: a resolved URL ending in .svg (case-insensitively) has
both intrinsic dimensions multiplied by targetDpi / assumedSourceDpi =
300 / 96 = 3.125 = 25/8 before layout; any other URL keeps its
intrinsic dimensions.  A vector asset of intrinsic size 100 by 50 is
laid out at 312.5 by 156.25 px per cell, while a raster asset of the
same intrinsic size is laid out at 100 by 50 px. -/
theorem vector_dpi_correction :
    (∀ (url : String) (w h : Nat), strEndsWith (strToLower url) ".svg" = true →
      correctedDims url w h = ((w : Rat) * (25 / 8), (h : Rat) * (25 / 8))) ∧
    (∀ (url : String) (w h : Nat), strEndsWith (strToLower url) ".svg" = false →
      correctedDims url w h = ((w : Rat), (h : Rat))) ∧
    DPI / 96 = (25 : Rat) / 8 ∧
    correctedDims "http://x/a.svg" 100 50 = ((625 : Rat) / 2, (625 : Rat) / 4) ∧
    correctedDims "http://x/a.png" 100 50 = (100, 50) ∧
    (625 : Rat) / 2 = 3125 / 10 ∧ (625 : Rat) / 4 = 15625 / 100 := by
  have hq : DPI / 96 = (25 : Rat) / 8 := by norm_num [DPI]
  refine ⟨?_, ?_, hq, ?_, ?_, by norm_num, by norm_num⟩
  · intro url w h hsvg
    rw [corrected_svg url w h hsvg, hq]
  · intro url w h hsvg
    exact corrected_raster url w h hsvg
  · rw [corrected_svg "http://x/a.svg" 100 50 (by decide)]
    norm_num [DPI]
  · rw [corrected_raster "http://x/a.png" 100 50 (by decide)]
    norm_num

/-- Witness for C4: the svg and raster branches at concrete inputs. -/
theorem vector_dpi_correction_witness :
    correctedDims "http://x/b.SVG" 100 50 = ((100 : Rat) * (25 / 8), (50 : Rat) * (25 / 8)) ∧
    correctedDims "http://x/b.png" 100 50 = ((100 : Rat), (50 : Rat)) :=
  ⟨vector_dpi_correction.1 "http://x/b.SVG" 100 50 (by decide),
   vector_dpi_correction.2.1 "http://x/b.png" 100 50 (by decide)⟩

/-- The example URL u is not an svg. -/
theorem corrected_u : correctedDims "u" 100 50 = (100, 50) := by
  rw [corrected_raster "u" 100 50 (by decide)]
  norm_num

/-- Full evaluation of the example group's layout step: a 5 by 10 grid
of 100 by 50 cells centered at (pageWidth - 500) / 2, cursor 0 to 500. -/
theorem drawGroup_gEx_eq :
    drawGroup load1 0 gEx =
      (gridCells "u" ((A4_WIDTH_PX - 500) / 2) 0 100 50 5 10, Except.ok 500) := by
  have hw : (correctedDims gEx.resolvedUrl 100 50).1 ≠ 0 := by
    show (correctedDims "u" 100 50).1 ≠ 0
    rw [corrected_u]
    norm_num
  have hh : (correctedDims gEx.resolvedUrl 100 50).2 ≠ 0 := by
    show (correctedDims "u" 100 50).2 ≠ 0
    rw [corrected_u]
    norm_num
  have hof : ¬((titleBand (0 + gEx.marginTop * DPI) gEx.title).2 +
      (gEx.verticalCount : Rat) * (correctedDims gEx.resolvedUrl 100 50).2 > A4_HEIGHT_PX) := by
    show ¬((titleBand (0 + (0 : Rat) * DPI) "").2 +
      ((10 : Int) : Rat) * (correctedDims "u" 100 50).2 > A4_HEIGHT_PX)
    rw [titleBand_empty, corrected_u]
    norm_num [A4_HEIGHT_PX, A4_HEIGHT_INCHES, DPI]
  rw [drawGroup_ok_eq load1 0 gEx 100 50 rfl hw hh hof]
  show (((titleBand (0 + (0 : Rat) * DPI) "").1 ++
      gridCells "u"
        ((A4_WIDTH_PX - ((5 : Int) : Rat) * (correctedDims "u" 100 50).1) / 2)
        ((titleBand (0 + (0 : Rat) * DPI) "").2)
        ((correctedDims "u" 100 50).1) ((correctedDims "u" 100 50).2)
        ((5 : Int).toNat) ((10 : Int).toNat)),
     Except.ok ((titleBand (0 + (0 : Rat) * DPI) "").2 +
       ((10 : Int) : Rat) * (correctedDims "u" 100 50).2)) =
    (gridCells "u" ((A4_WIDTH_PX - 500) / 2) 0 100 50 5 10, Except.ok 500)
  rw [titleBand_empty, corrected_u]
  norm_num
  rfl

/-- Evaluation of a one-group pass over the example group. -/
theorem drawGroups_gEx_eq :
    drawGroups load1 0 [gEx] =
      (gridCells "u" ((A4_WIDTH_PX - 500) / 2) 0 100 50 5 10, Except.ok 500) := by
  have h2 : (drawGroup load1 0 gEx).2 = Except.ok 500 := by rw [drawGroup_gEx_eq]
  rw [drawGroups_cons_ok load1 0 500 gEx [] h2, drawGroup_gEx_eq]
  simp [drawGroups]

/-- An overflowing variant of the example group: 100 rows of height 50
need 5000 px, more than the page height. -/
def gOver : BarcodeGroup := { gEx with verticalCount := 100 }

/-- The overflowing group aborts its layout step with the overflow
error. -/
theorem drawGroup_gOver_eq :
    drawGroup load1 0 gOver = ([], Except.error RenderError.overflow) := by
  have hw : (correctedDims gOver.resolvedUrl 100 50).1 ≠ 0 := by
    show (correctedDims "u" 100 50).1 ≠ 0
    rw [corrected_u]
    norm_num
  have hh : (correctedDims gOver.resolvedUrl 100 50).2 ≠ 0 := by
    show (correctedDims "u" 100 50).2 ≠ 0
    rw [corrected_u]
    norm_num
  have hof : (titleBand (0 + gOver.marginTop * DPI) gOver.title).2 +
      (gOver.verticalCount : Rat) * (correctedDims gOver.resolvedUrl 100 50).2 > A4_HEIGHT_PX := by
    show (titleBand (0 + (0 : Rat) * DPI) "").2 +
      ((100 : Int) : Rat) * (correctedDims "u" 100 50).2 > A4_HEIGHT_PX
    rw [titleBand_empty, corrected_u]
    norm_num [A4_HEIGHT_PX, A4_HEIGHT_INCHES, DPI]
  rw [drawGroup_overflow_eq load1 0 gOver 100 50 rfl hw hh hof]
  show (((titleBand (0 + (0 : Rat) * DPI) "").1), Except.error RenderError.overflow) = _
  rw [titleBand_empty]

/-- Claim C1: for every layout step of a contributing group whose image
loads with per-cell dimensions cellW by cellH (after vector
correction) and which passes the overflow check, the cursor advances by
exactly repeatY * cellH, the grid holds repeatX * repeatY cells, and
cell (row, col) is drawn at row-major flat index row * repeatX + col at
position (startX + col * cellW, cursorY + row * cellH) with size
exactly cellW by cellH, where startX = (pageWidthPx - repeatX * cellW)
/ 2 depends only on the page constant and this group's own grid width.
In particular the single example group with repeatX = 5, repeatY = 10,
cellW = 100, cellH = 50, marginTop = 0 and empty title occupies exactly
500 by 500 px: its pass returns cursor 500 and draws 50 cells, the
first at ((pageWidthPx - 500) / 2, 0) = (1981/2, 0) and the last at
(1981/2 + 400, 450), each 100 by 50. -/
theorem grid_layout :
    (∀ (load : String → Option (Nat × Nat)) (y : Rat) (g : BarcodeGroup) (w h : Nat),
      load g.resolvedUrl = some (w, h) →
      (correctedDims g.resolvedUrl w h).1 ≠ 0 →
      (correctedDims g.resolvedUrl w h).2 ≠ 0 →
      ¬((titleBand (y + g.marginTop * DPI) g.title).2 +
          (g.verticalCount : Rat) * (correctedDims g.resolvedUrl w h).2 > A4_HEIGHT_PX) →
      (drawGroup load y g).2 = Except.ok ((titleBand (y + g.marginTop * DPI) g.title).2 +
          (g.verticalCount : Rat) * (correctedDims g.resolvedUrl w h).2) ∧
      ((drawGroup load y g).1.drop
          (titleBand (y + g.marginTop * DPI) g.title).1.length).length
        = g.verticalCount.toNat * g.horizontalCount.toNat ∧
      (∀ r c : Nat, r < g.verticalCount.toNat → c < g.horizontalCount.toNat →
        ((drawGroup load y g).1.drop
            (titleBand (y + g.marginTop * DPI) g.title).1.length)[r * g.horizontalCount.toNat + c]?
          = some (Cmd.image g.resolvedUrl
              ((A4_WIDTH_PX - (g.horizontalCount : Rat) * (correctedDims g.resolvedUrl w h).1) / 2
                + (c : Rat) * (correctedDims g.resolvedUrl w h).1)
              ((titleBand (y + g.marginTop * DPI) g.title).2
                + (r : Rat) * (correctedDims g.resolvedUrl w h).2)
              ((correctedDims g.resolvedUrl w h).1)
              ((correctedDims g.resolvedUrl w h).2)))) ∧
    drawGroups load1 0 [gEx] =
      (gridCells "u" ((A4_WIDTH_PX - 500) / 2) 0 100 50 5 10, Except.ok 500) ∧
    (A4_WIDTH_PX - 500) / 2 = 1981 / 2 ∧
    (gridCells "u" ((A4_WIDTH_PX - 500) / 2) 0 100 50 5 10).length = 50 ∧
    (gridCells "u" ((A4_WIDTH_PX - 500) / 2) 0 100 50 5 10)[0]?
      = some (Cmd.image "u" ((A4_WIDTH_PX - 500) / 2) 0 100 50) ∧
    (gridCells "u" ((A4_WIDTH_PX - 500) / 2) 0 100 50 5 10)[49]?
      = some (Cmd.image "u" ((A4_WIDTH_PX - 500) / 2 + 400) 450 100 50) := by
  refine ⟨?_, drawGroups_gEx_eq, ?_, ?_, ?_, ?_⟩
  · intro load y g w h hl hw hh hof
    refine ⟨?_, ?_, ?_⟩
    · rw [drawGroup_ok_eq load y g w h hl hw hh hof]
    · rw [drawGroup_ok_eq load y g w h hl hw hh hof]
      dsimp only
      rw [List.drop_left, gridCells_length]
    · intro r c hr hc
      rw [drawGroup_ok_eq load y g w h hl hw hh hof]
      dsimp only
      rw [List.drop_left]
      exact gridCells_getElem g.resolvedUrl _ _ _ _ _ _ r c hr hc
  · norm_num [A4_WIDTH_PX, A4_WIDTH_INCHES, DPI]
  · rw [gridCells_length]
  · have h := gridCells_getElem "u" ((A4_WIDTH_PX - 500) / 2) 0 100 50 5 10 0 0
      (by norm_num) (by norm_num)
    simpa using h
  · have h := gridCells_getElem "u" ((A4_WIDTH_PX - 500) / 2) 0 100 50 5 10 9 4
      (by norm_num) (by norm_num)
    norm_num at h
    convert h using 3

/-- Witness for C1: the general layout statement applied to the example
group at cell (row 1, col 2). -/
theorem grid_layout_witness :
    ((drawGroup load1 0 gEx).1.drop
        (titleBand (0 + gEx.marginTop * DPI) gEx.title).1.length)[1 * gEx.horizontalCount.toNat + 2]?
      = some (Cmd.image gEx.resolvedUrl
          ((A4_WIDTH_PX - (gEx.horizontalCount : Rat) * (correctedDims gEx.resolvedUrl 100 50).1) / 2
            + ((2 : Nat) : Rat) * (correctedDims gEx.resolvedUrl 100 50).1)
          ((titleBand (0 + gEx.marginTop * DPI) gEx.title).2
            + ((1 : Nat) : Rat) * (correctedDims gEx.resolvedUrl 100 50).2)
          ((correctedDims gEx.resolvedUrl 100 50).1)
          ((correctedDims gEx.resolvedUrl 100 50).2)) := by
  have hw : (correctedDims gEx.resolvedUrl 100 50).1 ≠ 0 := by
    show (correctedDims "u" 100 50).1 ≠ 0
    rw [corrected_u]
    norm_num
  have hh : (correctedDims gEx.resolvedUrl 100 50).2 ≠ 0 := by
    show (correctedDims "u" 100 50).2 ≠ 0
    rw [corrected_u]
    norm_num
  have hof : ¬((titleBand (0 + gEx.marginTop * DPI) gEx.title).2 +
      (gEx.verticalCount : Rat) * (correctedDims gEx.resolvedUrl 100 50).2 > A4_HEIGHT_PX) := by
    show ¬((titleBand (0 + (0 : Rat) * DPI) "").2 +
      ((10 : Int) : Rat) * (correctedDims "u" 100 50).2 > A4_HEIGHT_PX)
    rw [titleBand_empty, corrected_u]
    norm_num [A4_HEIGHT_PX, A4_HEIGHT_INCHES, DPI]
  exact (grid_layout.1 load1 0 gEx 100 50 rfl hw hh hof).2.2 1 2 (by decide) (by decide)

/-- Claim C2: if at any contributing group the cursor (after margin and
title band) plus that group's grid height exceeds pageHeightPx, the
whole pass aborts with the overflow error; a succeeding step advances
the cursor by exactly the grid height and ends within the page (never a
silent vertical clip); and with non-negative margins and repeat counts
the cursor is monotonically non-decreasing across the sequence, with a
successful non-empty pass ending within pageHeightPx. -/
theorem overflow_guard :
    (∀ (load : String → Option (Nat × Nat)) (y : Rat) (g : BarcodeGroup)
        (rest : List BarcodeGroup) (w h : Nat),
      load g.resolvedUrl = some (w, h) →
      (correctedDims g.resolvedUrl w h).1 ≠ 0 →
      (correctedDims g.resolvedUrl w h).2 ≠ 0 →
      (titleBand (y + g.marginTop * DPI) g.title).2 +
          (g.verticalCount : Rat) * (correctedDims g.resolvedUrl w h).2 > A4_HEIGHT_PX →
      (drawGroups load y (g :: rest)).2 = Except.error RenderError.overflow) ∧
    (∀ (load : String → Option (Nat × Nat)) (y : Rat) (g : BarcodeGroup)
        (y' : Rat) (w h : Nat),
      load g.resolvedUrl = some (w, h) →
      (drawGroup load y g).2 = Except.ok y' →
      y' = (titleBand (y + g.marginTop * DPI) g.title).2 +
          (g.verticalCount : Rat) * (correctedDims g.resolvedUrl w h).2 ∧
      y' ≤ A4_HEIGHT_PX) ∧
    (∀ (load : String → Option (Nat × Nat)) (gs : List BarcodeGroup) (y y' : Rat),
      (∀ g ∈ gs, 0 ≤ g.marginTop ∧ 0 ≤ g.verticalCount) →
      (drawGroups load y gs).2 = Except.ok y' → y ≤ y') ∧
    (∀ (load : String → Option (Nat × Nat)) (gs : List BarcodeGroup) (y y' : Rat),
      gs ≠ [] → (drawGroups load y gs).2 = Except.ok y' → y' ≤ A4_HEIGHT_PX) := by
  refine ⟨?_, ?_, ?_, ?_⟩
  · intro load y g rest w h hl hw hh hof
    have hgo : (drawGroup load y g).2 = Except.error RenderError.overflow := by
      rw [drawGroup_overflow_eq load y g w h hl hw hh hof]
    rw [drawGroups_cons_err load y g rest RenderError.overflow hgo]
  · intro load y g y' w h hl hok
    obtain ⟨w', h', hl', hw', hh', hy, hle⟩ := drawGroup_ok_inv load y g y' hok
    rw [hl] at hl'
    have hp : (w, h) = (w', h') := Option.some.inj hl'
    have hw2 : w = w' := congrArg Prod.fst hp
    have hh2 : h = h' := congrArg Prod.snd hp
    subst hw2
    subst hh2
    exact ⟨hy, hle⟩
  · intro load gs y y' hmem hok
    exact drawGroups_ok_mono load gs y y' hmem hok
  · intro load gs y y' hne hok
    exact drawGroups_ok_last_le load gs y y' hne hok

/-- Witness for C2: the overflowing 5 by 100 variant aborts the pass
with the overflow error, and the example group's successful step
advances the cursor from 0 to exactly its grid height 500, within the
page. -/
theorem overflow_guard_witness :
    (drawGroups load1 0 (gOver :: [])).2 = Except.error RenderError.overflow ∧
    ((500 : Rat) = (titleBand (0 + gEx.marginTop * DPI) gEx.title).2 +
        (gEx.verticalCount : Rat) * (correctedDims gEx.resolvedUrl 100 50).2 ∧
      (500 : Rat) ≤ A4_HEIGHT_PX) ∧
    (0 : Rat) ≤ 500 := by
  have hw : (correctedDims gEx.resolvedUrl 100 50).1 ≠ 0 := by
    show (correctedDims "u" 100 50).1 ≠ 0
    rw [corrected_u]
    norm_num
  have hh : (correctedDims gEx.resolvedUrl 100 50).2 ≠ 0 := by
    show (correctedDims "u" 100 50).2 ≠ 0
    rw [corrected_u]
    norm_num
  have hof : (titleBand (0 + gOver.marginTop * DPI) gOver.title).2 +
      (gOver.verticalCount : Rat) * (correctedDims gOver.resolvedUrl 100 50).2 > A4_HEIGHT_PX := by
    show (titleBand (0 + (0 : Rat) * DPI) "").2 +
      ((100 : Int) : Rat) * (correctedDims "u" 100 50).2 > A4_HEIGHT_PX
    rw [titleBand_empty, corrected_u]
    norm_num [A4_HEIGHT_PX, A4_HEIGHT_INCHES, DPI]
  have hok : (drawGroup load1 0 gEx).2 = Except.ok 500 := by rw [drawGroup_gEx_eq]
  have hoks : (drawGroups load1 0 [gEx]).2 = Except.ok 500 := by rw [drawGroups_gEx_eq]
  have hmem : ∀ g ∈ [gEx], 0 ≤ g.marginTop ∧ 0 ≤ g.verticalCount := by
    intro g hg
    rw [List.mem_singleton] at hg
    subst hg
    exact ⟨le_refl 0, by decide⟩
  exact ⟨overflow_guard.1 load1 0 gOver [] 100 50 rfl hw hh hof,
    overflow_guard.2.1 load1 0 gEx 500 100 50 rfl hok,
    overflow_guard.2.2.1 load1 [gEx] 0 500 hmem hoks⟩

/-- A whitespace-only title is skipped by the trim check. -/
theorem titleBand_blank (y1 : Rat) : titleBand y1 " " = ([], y1) := by
  unfold titleBand
  rw [if_neg]
  rintro ⟨h1, h2⟩
  exact h2 (by decide)

/-- The example group with a whitespace-only title. -/
def gWs : BarcodeGroup := { gEx with title := " " }

/-- The whitespace-titled group lays out exactly like the untitled one:
no text command, no cursor advance for the title band. -/
theorem drawGroup_gWs_eq :
    drawGroup load1 0 gWs =
      (gridCells "u" ((A4_WIDTH_PX - 500) / 2) 0 100 50 5 10, Except.ok 500) := by
  have hw : (correctedDims gWs.resolvedUrl 100 50).1 ≠ 0 := by
    show (correctedDims "u" 100 50).1 ≠ 0
    rw [corrected_u]
    norm_num
  have hh : (correctedDims gWs.resolvedUrl 100 50).2 ≠ 0 := by
    show (correctedDims "u" 100 50).2 ≠ 0
    rw [corrected_u]
    norm_num
  have hof : ¬((titleBand (0 + gWs.marginTop * DPI) gWs.title).2 +
      (gWs.verticalCount : Rat) * (correctedDims gWs.resolvedUrl 100 50).2 > A4_HEIGHT_PX) := by
    show ¬((titleBand (0 + (0 : Rat) * DPI) " ").2 +
      ((10 : Int) : Rat) * (correctedDims "u" 100 50).2 > A4_HEIGHT_PX)
    rw [titleBand_blank, corrected_u]
    norm_num [A4_HEIGHT_PX, A4_HEIGHT_INCHES, DPI]
  rw [drawGroup_ok_eq load1 0 gWs 100 50 rfl hw hh hof]
  show (((titleBand (0 + (0 : Rat) * DPI) " ").1 ++
      gridCells "u"
        ((A4_WIDTH_PX - ((5 : Int) : Rat) * (correctedDims "u" 100 50).1) / 2)
        ((titleBand (0 + (0 : Rat) * DPI) " ").2)
        ((correctedDims "u" 100 50).1) ((correctedDims "u" 100 50).2)
        ((5 : Int).toNat) ((10 : Int).toNat)),
     Except.ok ((titleBand (0 + (0 : Rat) * DPI) " ").2 +
       ((10 : Int) : Rat) * (correctedDims "u" 100 50).2)) =
    (gridCells "u" ((A4_WIDTH_PX - 500) / 2) 0 100 50 5 10, Except.ok 500)
  rw [titleBand_blank, corrected_u]
  norm_num
  rfl

/-- Counterexample to C3 as stated: the group gWs has the non-empty
title consisting of one space, yet its layout step draws no text
command (the first command is already the first grid cell) and advances
the cursor by 0 for the title band (final cursor 500, not the
500 + 1.5 * fontSizePx = 600 the claim requires). -/
theorem title_whitespace_cex :
    (" " : String) ≠ "" ∧ gWs.title = " " ∧
    drawGroup load1 0 gWs =
      (gridCells "u" ((A4_WIDTH_PX - 500) / 2) 0 100 50 5 10, Except.ok 500) ∧
    (drawGroup load1 0 gWs).1.head? = some (Cmd.image "u" ((A4_WIDTH_PX - 500) / 2) 0 100 50) ∧
    (drawGroup load1 0 gWs).2 ≠ Except.ok (0 + fontSizePx * (3 / 2) + 500) := by
  refine ⟨?_, ?_, ?_, ?_, ?_⟩
  · decide
  · rfl
  · exact drawGroup_gWs_eq
  · rw [drawGroup_gWs_eq]
    dsimp only
    rw [List.head?_eq_getElem?]
    have h := gridCells_getElem "u" ((A4_WIDTH_PX - 500) / 2) 0 100 50 5 10 0 0
      (by norm_num) (by norm_num)
    simpa using h
  · rw [drawGroup_gWs_eq]
    intro hcontra
    have h5 : (500 : Rat) = 0 + fontSizePx * (3 / 2) + 500 := Except.ok.inj hcontra
    norm_num [fontSizePx, DPI] at h5

/-- Claim C3 as amended: a title that is non-blank after trimming is
drawn centered at pageWidth / 2 at the fixed 16pt-at-300DPI size with
baseline at cursor + fontSizePx, and the cursor advances by exactly
fontSizePx * 1.5 independently of the title text; a title that trims to
empty (in particular the empty title) draws nothing and advances the
cursor by 0; and in every layout step the title band's commands are
exactly the leading commands of the group's output. -/
theorem title_band_rules :
    (∀ (y1 : Rat) (t : String), strTrim t ≠ "" →
      titleBand y1 t = ([Cmd.text t fontSizePx (A4_WIDTH_PX / 2) (y1 + fontSizePx)],
        y1 + fontSizePx * (3 / 2))) ∧
    (∀ (y1 : Rat) (t : String), strTrim t = "" → titleBand y1 t = ([], y1)) ∧
    (∀ (load : String → Option (Nat × Nat)) (y : Rat) (g : BarcodeGroup),
      ((drawGroup load y g).1).take (titleBand (y + g.marginTop * DPI) g.title).1.length
        = (titleBand (y + g.marginTop * DPI) g.title).1) := by
  refine ⟨?_, ?_, ?_⟩
  · intro y1 t ht
    have hne : t ≠ "" := by
      rintro rfl
      exact ht rfl
    unfold titleBand
    rw [if_pos ⟨hne, ht⟩]
    refine Prod.ext rfl ?_
    dsimp only
    ring
  · intro y1 t ht
    unfold titleBand
    rw [if_neg]
    rintro ⟨h1, h2⟩
    exact h2 ht
  · intro load y g
    cases hl : load g.resolvedUrl with
    | none =>
        rw [drawGroup_loadFail_eq load y g hl]
        dsimp only
        exact List.take_length _
    | some wh =>
        obtain ⟨w, h⟩ := wh
        by_cases hz : (correctedDims g.resolvedUrl w h).1 = 0 ∨
            (correctedDims g.resolvedUrl w h).2 = 0
        · rw [drawGroup_zero_eq load y g w h hl hz]
          dsimp only
          exact List.take_length _
        · rw [not_or] at hz
          by_cases hof : (titleBand (y + g.marginTop * DPI) g.title).2 +
              (g.verticalCount : Rat) * (correctedDims g.resolvedUrl w h).2 > A4_HEIGHT_PX
          · rw [drawGroup_overflow_eq load y g w h hl hz.1 hz.2 hof]
            dsimp only
            exact List.take_length _
          · rw [drawGroup_ok_eq load y g w h hl hz.1 hz.2 hof]
            dsimp only
            exact List.take_left _ _

/-- Witness for the amended C3 at concrete inputs. -/
theorem title_band_rules_witness :
    titleBand 5 "Hi" = ([Cmd.text "Hi" fontSizePx (A4_WIDTH_PX / 2) (5 + fontSizePx)],
      5 + fontSizePx * (3 / 2)) ∧
    titleBand 3 " " = ([], 3) ∧
    ((drawGroup load1 0 gEx).1).take (titleBand (0 + gEx.marginTop * DPI) gEx.title).1.length
      = (titleBand (0 + gEx.marginTop * DPI) gEx.title).1 :=
  ⟨title_band_rules.1 5 "Hi" (by decide), title_band_rules.2.1 3 " " (by decide),
   title_band_rules.2.2 load1 0 gEx⟩

/-- Claim C10 (implicit): the layout engine has no horizontal overflow
check.  For a contributing group whose grid width exceeds pageWidthPx
(and which passes the vertical check), the step still succeeds, its
startX = (pageWidthPx - gridWidth) / 2 is negative, the row-major first
cell is drawn at that negative x, and the grid's right edge
startX + gridWidth extends past pageWidthPx. -/
theorem no_horizontal_check :
    ∀ (load : String → Option (Nat × Nat)) (y : Rat) (g : BarcodeGroup) (w h : Nat),
      load g.resolvedUrl = some (w, h) →
      (correctedDims g.resolvedUrl w h).1 ≠ 0 →
      (correctedDims g.resolvedUrl w h).2 ≠ 0 →
      ¬((titleBand (y + g.marginTop * DPI) g.title).2 +
          (g.verticalCount : Rat) * (correctedDims g.resolvedUrl w h).2 > A4_HEIGHT_PX) →
      A4_WIDTH_PX < (g.horizontalCount : Rat) * (correctedDims g.resolvedUrl w h).1 →
      0 < g.horizontalCount → 0 < g.verticalCount →
      (drawGroup load y g).2 = Except.ok ((titleBand (y + g.marginTop * DPI) g.title).2 +
          (g.verticalCount : Rat) * (correctedDims g.resolvedUrl w h).2) ∧
      (A4_WIDTH_PX - (g.horizontalCount : Rat) * (correctedDims g.resolvedUrl w h).1) / 2 < 0 ∧
      A4_WIDTH_PX <
        (A4_WIDTH_PX - (g.horizontalCount : Rat) * (correctedDims g.resolvedUrl w h).1) / 2
          + (g.horizontalCount : Rat) * (correctedDims g.resolvedUrl w h).1 ∧
      ((drawGroup load y g).1.drop
          (titleBand (y + g.marginTop * DPI) g.title).1.length)[0]?
        = some (Cmd.image g.resolvedUrl
            ((A4_WIDTH_PX - (g.horizontalCount : Rat) * (correctedDims g.resolvedUrl w h).1) / 2
              + ((0 : Nat) : Rat) * (correctedDims g.resolvedUrl w h).1)
            ((titleBand (y + g.marginTop * DPI) g.title).2
              + ((0 : Nat) : Rat) * (correctedDims g.resolvedUrl w h).2)
            ((correctedDims g.resolvedUrl w h).1)
            ((correctedDims g.resolvedUrl w h).2)) := by
  intro load y g w h hl hw hh hof hwide hx hv
  refine ⟨?_, by linarith, by linarith, ?_⟩
  · rw [drawGroup_ok_eq load y g w h hl hw hh hof]
  · rw [drawGroup_ok_eq load y g w h hl hw hh hof]
    dsimp only
    rw [List.drop_left]
    have h0 := gridCells_getElem g.resolvedUrl
      ((A4_WIDTH_PX - (g.horizontalCount : Rat) * (correctedDims g.resolvedUrl w h).1) / 2)
      ((titleBand (y + g.marginTop * DPI) g.title).2)
      ((correctedDims g.resolvedUrl w h).1) ((correctedDims g.resolvedUrl w h).2)
      g.horizontalCount.toNat g.verticalCount.toNat 0 0 (by omega) (by omega)
    simpa using h0

/-- A group over a wide 600 by 50 image: its 5-column grid is 3000 px
wide, wider than the 2481 px page. -/
def gWide : BarcodeGroup := { gEx with resolvedUrl := "w" }

/-- Loader for the wide example image. -/
def loadW : String → Option (Nat × Nat) := fun u =>
  if u = "w" then some (600, 50) else none

/-- Witness for C10: the wide group renders successfully with a
negative startX. -/
theorem no_horizontal_check_witness :
    (drawGroup loadW 0 gWide).2 = Except.ok ((titleBand (0 + gWide.marginTop * DPI) gWide.title).2 +
        (gWide.verticalCount : Rat) * (correctedDims gWide.resolvedUrl 600 50).2) ∧
    (A4_WIDTH_PX - (gWide.horizontalCount : Rat) * (correctedDims gWide.resolvedUrl 600 50).1) / 2 < 0 ∧
    A4_WIDTH_PX <
      (A4_WIDTH_PX - (gWide.horizontalCount : Rat) * (correctedDims gWide.resolvedUrl 600 50).1) / 2
        + (gWide.horizontalCount : Rat) * (correctedDims gWide.resolvedUrl 600 50).1 ∧
    ((drawGroup loadW 0 gWide).1.drop
        (titleBand (0 + gWide.marginTop * DPI) gWide.title).1.length)[0]?
      = some (Cmd.image gWide.resolvedUrl
          ((A4_WIDTH_PX - (gWide.horizontalCount : Rat) * (correctedDims gWide.resolvedUrl 600 50).1) / 2
            + ((0 : Nat) : Rat) * (correctedDims gWide.resolvedUrl 600 50).1)
          ((titleBand (0 + gWide.marginTop * DPI) gWide.title).2
            + ((0 : Nat) : Rat) * (correctedDims gWide.resolvedUrl 600 50).2)
          ((correctedDims gWide.resolvedUrl 600 50).1)
          ((correctedDims gWide.resolvedUrl 600 50).2)) := by
  have hcw : correctedDims "w" 600 50 = (600, 50) := by
    rw [corrected_raster "w" 600 50 (by decide)]
    norm_num
  have hw : (correctedDims gWide.resolvedUrl 600 50).1 ≠ 0 := by
    show (correctedDims "w" 600 50).1 ≠ 0
    rw [hcw]
    norm_num
  have hh : (correctedDims gWide.resolvedUrl 600 50).2 ≠ 0 := by
    show (correctedDims "w" 600 50).2 ≠ 0
    rw [hcw]
    norm_num
  have hof : ¬((titleBand (0 + gWide.marginTop * DPI) gWide.title).2 +
      (gWide.verticalCount : Rat) * (correctedDims gWide.resolvedUrl 600 50).2 > A4_HEIGHT_PX) := by
    show ¬((titleBand (0 + (0 : Rat) * DPI) "").2 +
      ((10 : Int) : Rat) * (correctedDims "w" 600 50).2 > A4_HEIGHT_PX)
    rw [titleBand_empty, hcw]
    norm_num [A4_HEIGHT_PX, A4_HEIGHT_INCHES, DPI]
  have hwide : A4_WIDTH_PX < (gWide.horizontalCount : Rat) * (correctedDims gWide.resolvedUrl 600 50).1 := by
    show A4_WIDTH_PX < ((5 : Int) : Rat) * (correctedDims "w" 600 50).1
    rw [hcw]
    norm_num [A4_WIDTH_PX, A4_WIDTH_INCHES, DPI]
  exact no_horizontal_check loadW 0 gWide 600 50 rfl hw hh hof hwide (by decide) (by decide)

/-- Claim C8: the download action is disabled whenever any existing
group's validation state is not valid, or any group has a non-positive
repeat count, or no groups exist, regardless of the other groups. -/
theorem export_gating :
    ∀ (isLoading : Bool) (gs : List BarcodeGroup),
      ((∃ g ∈ gs, g.validationStatus ≠ ValidationStatus.valid) ∨
       (∃ g ∈ gs, g.horizontalCount ≤ 0 ∨ g.verticalCount ≤ 0) ∨
       gs = []) →
      isDownloadDisabled isLoading gs = true := by
  intro il gs h
  unfold isDownloadDisabled
  simp only [Bool.or_eq_true, List.any_eq_true]
  rcases h with ⟨g, hg, hs⟩ | ⟨g, hg, hc⟩ | rfl
  · refine Or.inr ⟨g, hg, ?_⟩
    simp [hs]
  · refine Or.inr ⟨g, hg, ?_⟩
    rcases hc with hc | hc <;> simp [hc]
  · exact Or.inl (Or.inr (by simp))

/-- A group still in the checking state. -/
def gChecking : BarcodeGroup := { gEx with validationStatus := ValidationStatus.checking }

/-- Witness for C8: one checking group next to one valid group disables
the download. -/
theorem export_gating_witness :
    (∃ g ∈ [gEx, gChecking], g.validationStatus ≠ ValidationStatus.valid) ∧
    isDownloadDisabled false [gEx, gChecking] = true := by
  have hmem : ∃ g ∈ [gEx, gChecking], g.validationStatus ≠ ValidationStatus.valid := by
    refine ⟨gChecking, by simp, ?_⟩
    decide
  exact ⟨hmem, export_gating false [gEx, gChecking] (Or.inl hmem)⟩

/-- Counterexample to C7 as stated: rendering an empty group sequence
returns from drawOnCanvas before the error-clearing call (the early
return after the contribution filter), so a previously shown error
message survives the empty render unchanged. -/
theorem empty_render_keeps_error_cex :
    (drawOnCanvas (fun _ => none) [] false 0 0 1).errEffect = ErrEffect.noCall ∧
    applyEffect (some "previous failure")
        ((drawOnCanvas (fun _ => none) [] false 0 0 1).errEffect)
      = some "previous failure" ∧
    (some "previous failure" : Option String) ≠ none := by
  have he := drawOnCanvas_export_empty (fun _ => none) [] 0 0 1 rfl
  refine ⟨by rw [he], by rw [he]; rfl, by simp⟩

/-- Claim C7 as amended: rendering an empty group sequence (or one with
no contributing groups) succeeds, producing a uniformly white page of
exactly pageWidthPx by pageHeightPx and raising no error; however it
leaves the error state untouched (it returns before the clearing step),
so a previously shown error message is not cleared by it.  A successful
render with at least one contributing group does clear the error
state. -/
theorem empty_render_amended :
    (∀ (load : String → Option (Nat × Nat)) (oW oH dpr : Rat),
      drawOnCanvas load [] false oW oH dpr =
        { canvasW := A4_WIDTH_PX, canvasH := A4_HEIGHT_PX,
          cmds := [Cmd.fillRect 0 0 A4_WIDTH_PX A4_HEIGHT_PX "white"],
          errEffect := ErrEffect.noCall }) ∧
    (∀ prev : Option String, applyEffect prev ErrEffect.noCall = prev) ∧
    (∀ (load : String → Option (Nat × Nat)) (gs : List BarcodeGroup) (oW oH dpr y : Rat),
      (validGroups gs).isEmpty = false →
      (drawGroups load 0 (validGroups gs)).2 = Except.ok y →
      (drawOnCanvas load gs false oW oH dpr).errEffect = ErrEffect.cleared) := by
  refine ⟨?_, fun prev => rfl, ?_⟩
  · intro load oW oH dpr
    rw [drawOnCanvas_export_empty load [] oW oH dpr rfl]
    norm_num
  · intro load gs oW oH dpr y hne hok
    rw [drawOnCanvas_export_ok load gs oW oH dpr y hne hok]

/-- Witness for the amended C7 at concrete inputs. -/
theorem empty_render_amended_witness :
    drawOnCanvas load1 [] false 0 0 1 =
      { canvasW := A4_WIDTH_PX, canvasH := A4_HEIGHT_PX,
        cmds := [Cmd.fillRect 0 0 A4_WIDTH_PX A4_HEIGHT_PX "white"],
        errEffect := ErrEffect.noCall } ∧
    applyEffect (some "x") ErrEffect.noCall = some "x" ∧
    (drawOnCanvas load1 [gEx] false 0 0 1).errEffect = ErrEffect.cleared := by
  have hok : (drawGroups load1 0 (validGroups [gEx])).2 = Except.ok 500 := by
    show (drawGroups load1 0 [gEx]).2 = Except.ok 500
    rw [drawGroups_gEx_eq]
  exact ⟨empty_render_amended.1 load1 0 0 1, empty_render_amended.2.1 (some "x"),
    empty_render_amended.2.2 load1 [gEx] 0 0 1 500 rfl hok⟩

/-- A failing load turns the example group's step into the load error
with no commands. -/
theorem drawGroup_loadNone_gEx :
    drawGroup (fun _ => none) 0 gEx = ([], Except.error (RenderError.loadFailed "u")) := by
  rw [drawGroup_loadFail_eq (fun _ => none) 0 gEx rfl]
  show ((titleBand (0 + (0 : Rat) * DPI) "").1,
    Except.error (RenderError.loadFailed "u")) = _
  rw [titleBand_empty]

/-- A failing load aborts the whole example pass. -/
theorem drawGroups_loadNone_gEx :
    drawGroups (fun _ => none) 0 [gEx] = ([], Except.error (RenderError.loadFailed "u")) := by
  have h2 : (drawGroup (fun _ => none) 0 gEx).2
      = Except.error (RenderError.loadFailed "u") := by
    rw [drawGroup_loadNone_gEx]
  rw [drawGroups_cons_err (fun _ => none) 0 gEx [] (RenderError.loadFailed "u") h2,
    drawGroup_loadNone_gEx]

/-- The fit factor of the one-fifth-scale preview box. -/
theorem scaleToFit_fifth : scaleToFit (2481 / 5) (3507 / 5) = 1 / 5 := by
  unfold scaleToFit
  norm_num [A4_WIDTH_PX, A4_WIDTH_INCHES, A4_HEIGHT_PX, A4_HEIGHT_INCHES, DPI]

/-- Claim C6 at the failing input: in a preview whose box is one fifth
of the page in each direction (dpr 1) the failing render sets the error
but paints the red tint over only a (2481/25) by (3507/25) top-left
rectangle of the (2481/5) by (3507/5) canvas (ctx.restore is skipped on
throw, leaving scaleToFit applied in the catch), while the same failure
in export mode does tint the whole page. -/
theorem preview_tint_partial :
    (drawOnCanvas (fun _ => none) [gEx] true (2481 / 5) (3507 / 5) 1).errEffect
      = ErrEffect.set (RenderError.loadFailed "u") ∧
    (drawOnCanvas (fun _ => none) [gEx] true (2481 / 5) (3507 / 5) 1).cmds
      = [Cmd.fillRect 0 0 (2481 / 5) (3507 / 5) "white",
         Cmd.fillRect 0 0 (2481 / 25) (3507 / 25) "rgba(255, 0, 0, 0.1)"] ∧
    (2481 : Rat) / 25
      < (drawOnCanvas (fun _ => none) [gEx] true (2481 / 5) (3507 / 5) 1).canvasW ∧
    (3507 : Rat) / 25
      < (drawOnCanvas (fun _ => none) [gEx] true (2481 / 5) (3507 / 5) 1).canvasH ∧
    (drawOnCanvas (fun _ => none) [gEx] false 0 0 1).cmds.getLast?
      = some (Cmd.fillRect 0 0 A4_WIDTH_PX A4_HEIGHT_PX "rgba(255, 0, 0, 0.1)") := by
  have hv : validGroups [gEx] = [gEx] := rfl
  have herr : (drawGroups (fun _ => none) 0 (validGroups [gEx])).2
      = Except.error (RenderError.loadFailed "u") := by
    rw [hv, drawGroups_loadNone_gEx]
  have he := drawOnCanvas_preview_error (fun _ => none) [gEx] (2481 / 5) (3507 / 5) 1
    (RenderError.loadFailed "u") rfl herr
  have he2 := drawOnCanvas_export_error (fun _ => none) [gEx] 0 0 1
    (RenderError.loadFailed "u") rfl herr
  refine ⟨by rw [he], ?_, ?_, ?_, ?_⟩
  · rw [he]
    dsimp only
    rw [hv, drawGroups_loadNone_gEx, scaleToFit_fifth]
    norm_num
  · rw [he]
    norm_num
  · rw [he]
    norm_num
  · rw [he2]
    dsimp only
    rw [hv, drawGroups_loadNone_gEx]
    norm_num [List.getLast?]

/-- The race scenario's initial group: identifier A, not yet
validated. -/
def gRace : BarcodeGroup :=
  { gEx with
    inputValue := "A",
    resolvedUrl := "",
    validationStatus := ValidationStatus.idle }

/-- The race trace of C5: validation of A starts (checking), the user
edits the identifier to B (resetting state), validation of B starts,
B's resolution completes first (urlB), then A's stale resolution
completes last (urlA).  Each completion writes by group id only. -/
def raceFinal : List BarcodeGroup :=
  applyValidResult 1 "urlA"
    (applyValidResult 1 "urlB"
      (startChecking 1 (setInputValue 1 "B" (startChecking 1 [gRace]))))

/-- Claim C5 at the failing interleaving: after both resolutions
complete, the group's current identifier is B but its stored
resolvedUrl is urlA, the stale result of the older edit: the
last-completed write wins, not the one matching the current
identifier. -/
theorem stale_resolution_overwrites :
    raceFinal = [{ gRace with
                   inputValue := "B",
                   resolvedUrl := "urlA",
                   validationStatus := ValidationStatus.valid }] ∧
    raceFinal.map (fun g => g.inputValue) = ["B"] ∧
    raceFinal.map (fun g => g.resolvedUrl) = ["urlA"] ∧
    ("urlA" : String) ≠ "urlB" := by
  exact ⟨rfl, rfl, rfl, by decide⟩
